import Mathlib

/-!
Shallow embedding of the AgriSense backend (TypeScript/Express/Mongoose)
and proofs about its specified behaviour.

Modelling conventions:
* Machine-level details that the handlers never branch on are abstracted:
  dates are `Int` milliseconds, JavaScript numbers are `ℚ` (the handlers
  perform only exact arithmetic and comparisons on the values involved),
  MongoDB documents are typed Lean structures mirroring the Mongoose
  schemas, and a collection is a `List` of documents.
* `jwt.verify` and `mongoose.Types.ObjectId.isValid` are passed to the
  handlers as function parameters (`verify`, `isValid`): the handlers
  only branch on their results.
* `Math.random()` is modelled as an oracle `RandS : Nat → ℚ`; the k-th
  call of `Math.random()` during a handler run reads index k.  Handlers
  of the "mock ML" endpoints all receive the oracle, whether or not
  their source consults it.
* An Express handler's observable outcome is the response it sends
  (`HResult`) together with the collection state after its awaited
  database writes.
-/

namespace Agrisense

/-- HTTP response of a handler: `ok` is the JSON success payload
(status 200/201), `err status message` are the `res.status(s).json({message})`
rejections. -/
inductive HResult (α : Type) where
  | ok : α → HResult α
  | err : Nat → String → HResult α
deriving DecidableEq, Repr

/-- User roles; the `UserRole` enum of `models/User.ts` (file absent from
the sources; the four roles and their string values are those the spec
lists: farmer, vendor, ngo, admin). -/
inductive UserRole where
  | farmer | vendor | ngo | admin
deriving DecidableEq, Repr

/-- Modelled from the spec: string value of a role as stored in the
`UserRole` enum of the absent `models/User.ts` (spec: roles
farmer/vendor/ngo/admin). -/
def roleValue : UserRole → String
  | .farmer => "farmer"
  | .vendor => "vendor"
  | .ngo => "ngo"
  | .admin => "admin"

/-- The decoded JWT payload `{ id, role }` attached to `req.user`
(`authMiddleware.ts`). -/
structure TokenPayload where
  id : String
  role : UserRole
deriving DecidableEq, Repr

/-- Outcome of a middleware: `reject status message` sends the error and
stops the chain (the route handler is not invoked); `proceed u` calls
`next()` with `req.user = u`. -/
inductive GateResult where
  | reject : Nat → String → GateResult
  | proceed : TokenPayload → GateResult
deriving DecidableEq, Repr

/-- JavaScript `String.prototype.split` with a one-character separator,
over the character sequence (auxiliary recursion). -/
def jsSplitAux (sep : Char) : List Char → List Char → List String
  | [], acc => [String.mk acc.reverse]
  | c :: cs, acc =>
    if c = sep then String.mk acc.reverse :: jsSplitAux sep cs []
    else jsSplitAux sep cs (c :: acc)

/-- JavaScript `s.split(sep)` for a one-character separator:
`'a b'.split(' ') = ['a','b']`, `'a '.split(' ') = ['a','']`. -/
def jsSplit (s : String) (sep : Char) : List String := jsSplitAux sep s.data []

/-- JavaScript `s.startsWith(pre)`. -/
def jsStartsWith (s pre : String) : Bool := pre.data.isPrefixOf s.data

/-- `protect` middleware (`authMiddleware.ts`): extracts the bearer token
from the `Authorization` header and verifies it.  `verify` stands for
`jwt.verify` against the shared secret: `some payload` on success, `none`
when verification throws.  JavaScript `split(' ')[1]` is
`(jsSplit a ' ')[1]?` (`undefined` = `none`); `!token` is true for
both a missing and an empty token. -/
def protect (verify : String → Option TokenPayload) (authHeader : Option String) :
    GateResult :=
  let token? : Option String :=
    match authHeader with
    | some a => if jsStartsWith a "Bearer" then (jsSplit a ' ')[1]? else none
    | none => none
  match token? with
  | none => .reject 401 "Not authorized, no token provided"
  | some t =>
    if t = "" then .reject 401 "Not authorized, no token provided"
    else
      match verify t with
      | none => .reject 401 "Not authorized, invalid token"
      | some decoded => .proceed { id := decoded.id, role := decoded.role }

/-- `authorize` middleware (`authMiddleware.ts`): the `UserRole | UserRole[]`
argument normalised to a list (`allowedRoles`); rejects 401 without a
`req.user`, 403 when the decoded role is not allowed. -/
def authorize (roles : List UserRole) (user : Option TokenPayload) : GateResult :=
  match user with
  | none => .reject 401 "Not authorized, no user found"
  | some u =>
    if roles.contains u.role then .proceed u
    else
      .reject 403
        ("Access denied. Required role: " ++ String.intercalate " or " (roles.map roleValue))

/-- `farmerOnly = authorize(UserRole.FARMER)` (`authMiddleware.ts`). -/
def farmerOnly (user : Option TokenPayload) : GateResult := authorize [.farmer] user

/-- `vendorOnly = authorize(UserRole.VENDOR)` (`authMiddleware.ts`). -/
def vendorOnly (user : Option TokenPayload) : GateResult := authorize [.vendor] user

/-- `ngoOnly = authorize(UserRole.NGO)` (`authMiddleware.ts`). -/
def ngoOnly (user : Option TokenPayload) : GateResult := authorize [.ngo] user

/-! ## Product model (`models/Product.ts`) -/

/-- `ProductStatus` enum. -/
inductive ProductStatus where
  | available | reserved | sold
deriving DecidableEq, Repr

/-- `ProductCategory` enum, in declaration order (`Object.values` order). -/
inductive ProductCategory where
  | fruits | vegetables | grains | dairy | livestock | other
deriving DecidableEq, Repr

/-- String value of a product category. -/
def categoryValue : ProductCategory → String
  | .fruits => "fruits"
  | .vegetables => "vegetables"
  | .grains => "grains"
  | .dairy => "dairy"
  | .livestock => "livestock"
  | .other => "other"

/-- `Object.values(ProductCategory)` as used by `getDemandForecasts`. -/
def productCategories : List ProductCategory :=
  [.fruits, .vegetables, .grains, .dairy, .livestock, .other]

/-- `location` sub-document of a product. -/
structure ProdLocation where
  country : String
  region : String
  coordinates : Option (ℚ × ℚ)
deriving DecidableEq, Repr

/-- `storageRequirements` sub-document of a product. -/
structure StorageRequirements where
  temperature : Option (ℚ × ℚ)
  humidity : Option (ℚ × ℚ)
  lightSensitive : Option Bool
deriving DecidableEq, Repr

/-- A stored product document (`productSchema`).  `id` is the MongoDB
`_id`; `seller` holds the referenced user's id. -/
structure ProductDoc where
  id : String
  seller : String
  farm : Option String
  name : String
  description : String
  category : ProductCategory
  quantity : ℚ
  unit : String
  price : ℚ
  currency : String
  harvestDate : Int
  expiryEstimate : Int
  status : ProductStatus
  location : ProdLocation
  images : Option (List String)
  qualityCertification : Option (List String)
  organicCertification : Option Bool
  storageRequirements : Option StorageRequirements
deriving DecidableEq, Repr

/-- Request body of `createProduct` — exactly the fields its destructuring
reads (note: no `status` field is read from the body).  Fields the schema
requires are plain; schema-optional ones are `Option`. -/
structure CreateProductBody where
  name : String
  description : String
  category : ProductCategory
  quantity : ℚ
  unit : String
  price : ℚ
  currency : Option String
  harvestDate : Int
  expiryEstimate : Int
  location : ProdLocation
  farmId : Option String
  images : Option (List String)
  qualityCertification : Option (List String)
  organicCertification : Option Bool
  storageRequirements : Option StorageRequirements
deriving DecidableEq, Repr

/-- Request body of `updateProduct`: an arbitrary subset of the schema's
settable fields (`none` = key absent from `req.body`).  `sellerField` and
`idField` stand for `seller` and `_id` keys in the body; Mongoose strict
mode drops non-schema keys from a `$set`. -/
structure ProductUpdateBody where
  sellerField : Option String := none
  idField : Option String := none
  farm : Option (Option String) := none
  name : Option String := none
  description : Option String := none
  category : Option ProductCategory := none
  quantity : Option ℚ := none
  unit : Option String := none
  price : Option ℚ := none
  currency : Option String := none
  harvestDate : Option Int := none
  expiryEstimate : Option Int := none
  status : Option ProductStatus := none
  location : Option ProdLocation := none
  images : Option (List String) := none
  qualityCertification : Option (List String) := none
  organicCertification : Option Bool := none
  storageRequirements : Option StorageRequirements := none
deriving DecidableEq, Repr

/-! ## Vendor product handlers (`vendorController.ts`) -/

/-- `createProduct`: rejects 401 without a `user-id` header, otherwise
creates the document.  `status` is always `ProductStatus.AVAILABLE`;
`farm` is `farmId || undefined`; `currency` falls back to the schema
default `'USD'`.  `newId` is the `_id` MongoDB assigns.  Returns the 201
response and the collection after the insert. -/
def createProduct (headerUserId : Option String) (newId : String)
    (body : CreateProductBody) (db : List ProductDoc) :
    HResult ProductDoc × List ProductDoc :=
  match headerUserId with
  | none => (.err 401 "Not authorized", db)
  | some uid =>
    let product : ProductDoc :=
      { id := newId
        seller := uid
        farm := body.farmId
        name := body.name
        description := body.description
        category := body.category
        quantity := body.quantity
        unit := body.unit
        price := body.price
        currency := body.currency.getD "USD"
        harvestDate := body.harvestDate
        expiryEstimate := body.expiryEstimate
        status := ProductStatus.available
        location := body.location
        images := body.images
        qualityCertification := body.qualityCertification
        organicCertification := body.organicCertification
        storageRequirements := body.storageRequirements }
    (.ok product, db ++ [product])

/-- The `$set` of `updateProduct`: every key of the body except `seller`
and `_id` is applied to the stored document (`Object.entries(req.body)
.filter(([key]) => key !== 'seller' && key !== '_id')`).  In particular
a `status` key in the body IS applied. -/
def applyProductUpdate (p : ProductDoc) (u : ProductUpdateBody) : ProductDoc :=
  { p with
    farm := u.farm.getD p.farm
    name := u.name.getD p.name
    description := u.description.getD p.description
    category := u.category.getD p.category
    quantity := u.quantity.getD p.quantity
    unit := u.unit.getD p.unit
    price := u.price.getD p.price
    currency := u.currency.getD p.currency
    harvestDate := u.harvestDate.getD p.harvestDate
    expiryEstimate := u.expiryEstimate.getD p.expiryEstimate
    status := u.status.getD p.status
    location := u.location.getD p.location
    images := u.images.orElse (fun _ => p.images)
    qualityCertification := u.qualityCertification.orElse (fun _ => p.qualityCertification)
    organicCertification := u.organicCertification.orElse (fun _ => p.organicCertification)
    storageRequirements := u.storageRequirements.orElse (fun _ => p.storageRequirements) }

/-- Replace the document with the given `_id` (model of
`findByIdAndUpdate`'s write). -/
def replaceById (db : List ProductDoc) (pid : String) (p' : ProductDoc) :
    List ProductDoc :=
  db.map fun p => if p.id = pid then p' else p

/-- `updateProduct`: 401 without `user-id` header, 400 on invalid ObjectId,
404 when absent, 403 when `product.seller.toString() !== userId`, else
`findByIdAndUpdate` with the filtered `$set` and the updated document as
response. -/
def updateProduct (isValid : String → Bool) (headerUserId : Option String)
    (productId : String) (body : ProductUpdateBody) (db : List ProductDoc) :
    HResult ProductDoc × List ProductDoc :=
  match headerUserId with
  | none => (.err 401 "Not authorized", db)
  | some uid =>
    if ¬ isValid productId then (.err 400 "Invalid product ID", db)
    else
      match db.find? (fun p => p.id = productId) with
      | none => (.err 404 "Product not found", db)
      | some p =>
        if p.seller ≠ uid then
          (.err 403 "Not authorized to update this product", db)
        else
          let updated := applyProductUpdate p body
          (.ok updated, replaceById db productId updated)

/-- `deleteProduct`: 401 without `user-id` header, 400 on invalid ObjectId,
404 when absent, 403 when the stored `seller` differs from the header
value, else `findByIdAndDelete` and `{ message: 'Product removed' }`. -/
def deleteProduct (isValid : String → Bool) (headerUserId : Option String)
    (productId : String) (db : List ProductDoc) :
    HResult String × List ProductDoc :=
  match headerUserId with
  | none => (.err 401 "Not authorized", db)
  | some uid =>
    if ¬ isValid productId then (.err 400 "Invalid product ID", db)
    else
      match db.find? (fun p => p.id = productId) with
      | none => (.err 404 "Product not found", db)
      | some p =>
        if p.seller ≠ uid then
          (.err 403 "Not authorized to delete this product", db)
        else
          (.ok "Product removed", db.filter (fun q => q.id ≠ productId))

/-! ## Mock "ML" endpoints

`Math.random()` is an oracle `RandS`; the k-th call during a run reads
index k.  Handlers of this group take the oracle uniformly, whether or
not their body contains a `Math.random()` call. -/

/-- Stream of `Math.random()` results (values in `[0,1)`). -/
def RandS : Type := Nat → ℚ

/-- `getRiskRecommendations` helper (the `category` argument is accepted
but never used by the `switch`). -/
def getRiskRecommendations (riskLevel : String) (category : String) : List String :=
  match riskLevel with
  | "critical" =>
    [ "Sell immediately at discount",
      "Process into longer-lasting form",
      "Donate to local food bank within 24 hours" ]
  | "high" =>
    [ "Adjust storage conditions to extend shelf life",
      "Consider promotional pricing",
      "Move to high-visibility marketplace location" ]
  | "medium" =>
    [ "Monitor storage conditions daily",
      "Check for signs of early deterioration",
      "Plan marketing strategy for next week" ]
  | _ =>
    [ "Standard storage procedures are sufficient",
      "Regular quality checks recommended" ]

/-- One element of the `getSpoilageRisks` response. -/
structure SpoilageRisk where
  productId : String
  productName : String
  expiryDate : Int
  daysUntilExpiry : Int
  riskScore : ℚ
  riskLevel : String
  recommendations : List String
deriving DecidableEq, Repr

/-- `getSpoilageRisks`: 401 without `user-id` header; otherwise maps the
caller's unsold products to risk entries computed from
`Math.floor((expiry - now) / 86400000)` and fixed thresholds.  The body
contains no `Math.random()` call, so the oracle `r` is never consulted.
`now` is `new Date()` in milliseconds. -/
def getSpoilageRisks (r : RandS) (headerUserId : Option String) (now : Int)
    (db : List ProductDoc) : HResult (List SpoilageRisk) :=
  match headerUserId with
  | none => .err 401 "Not authorized"
  | some uid =>
    let products := db.filter fun p => p.seller = uid ∧ p.status ≠ .sold
    .ok (products.map fun p =>
      let daysUntilExpiry : Int := Int.fdiv (p.expiryEstimate - now) 86400000
      let score : ℚ × String :=
        if daysUntilExpiry < 3 then (0.9, "critical")
        else if daysUntilExpiry < 7 then (0.7, "high")
        else if daysUntilExpiry < 14 then (0.4, "medium")
        else (0.1, "low")
      { productId := p.id
        productName := p.name
        expiryDate := p.expiryEstimate
        daysUntilExpiry := daysUntilExpiry
        riskScore := score.1
        riskLevel := score.2
        recommendations := getRiskRecommendations score.2 (categoryValue p.category) })

/-- The fixed `markets` array of `getBestMarkets`. -/
def markets : List String :=
  [ "Central Farmers Market",
    "East District Food Hub",
    "Western Agricultural Exchange",
    "Northern Territory Trade Center",
    "Southern Cooperative Market" ]

/-- Insert a value into a list using the random comparator
`() => 0.5 - Math.random()` — the element goes in front of the first
element for which the comparator is not positive; each comparison draws
one value.  Returns the list and the next unread oracle index. -/
def randInsert (r : RandS) (x : String) (l : List String) (i : Nat) :
    List String × Nat :=
  match l with
  | [] => ([x], i)
  | y :: ys =>
    if (0.5 : ℚ) - r i > 0 then (x :: y :: ys, i + 1)
    else
      let (l', i') := randInsert r x ys (i + 1)
      (y :: l', i')

/-- `[...markets].sort(() => 0.5 - Math.random())`, modelled as insertion
sort with the random comparator (V8 sorts arrays of at most 22 elements
by insertion sort). -/
def randSort (r : RandS) (l : List String) (i : Nat) : List String × Nat :=
  match l with
  | [] => ([], i)
  | x :: xs =>
    let (sorted, i') := randSort r xs i
    randInsert r x sorted i'

/-- `getBestMarkets` helper: draws `numMarkets ∈ {2,3}`, shuffles the
fixed market list, takes the prefix.  The `category` argument is unused
by the source body. -/
def getBestMarkets (r : RandS) (category : String) (i : Nat) :
    List String × Nat :=
  let numMarkets := ((r i * 2).floor + 2).toNat
  let (shuffled, i') := randSort r markets (i + 1)
  (shuffled.take numMarkets, i')

/-- One element of the `getDemandForecasts` response. -/
structure DemandForecast where
  category : ProductCategory
  demandScore : ℚ
  demandTrend : String
  priceRecommendation : String
  bestMarkets : List String
  forecastNextWeek : Int
  forecastNextMonth : Int
deriving DecidableEq, Repr

/-- Forecast for one category, threading the oracle index in source
evaluation order: demandScore, then the best-markets draws, then
`forecast.nextWeek` and `forecast.nextMonth`. -/
def forecastFor (r : RandS) (cat : ProductCategory) (i : Nat) :
    DemandForecast × Nat :=
  let demandScore := r i
  let trendRec : String × String :=
    if demandScore > 0.7 then ("increasing", "consider 5-10% increase")
    else if demandScore < 0.3 then ("decreasing", "consider 5-10% discount")
    else ("stable", "maintain")
  let (best, i') := getBestMarkets r (categoryValue cat) (i + 1)
  let nextWeek := (r i' * 50).floor + 50
  let nextMonth := (r (i' + 1) * 200).floor + 100
  ({ category := cat
     demandScore := demandScore
     demandTrend := trendRec.1
     priceRecommendation := trendRec.2
     bestMarkets := best
     forecastNextWeek := nextWeek
     forecastNextMonth := nextMonth }, i' + 2)

/-- `Object.values(ProductCategory).map(...)` with the oracle threaded
through the per-category closures in order. -/
def forecastAll (r : RandS) (cats : List ProductCategory) (i : Nat) :
    List DemandForecast :=
  match cats with
  | [] => []
  | c :: cs =>
    let (f, i') := forecastFor r c i
    f :: forecastAll r cs i'

/-- `getDemandForecasts`: 401 without `user-id` header; otherwise the
mock forecasts, whose scores and market orders are fresh `Math.random()`
draws. -/
def getDemandForecasts (r : RandS) (headerUserId : Option String) :
    HResult (List DemandForecast) :=
  match headerUserId with
  | none => .err 401 "Not authorized"
  | some _ => .ok (forecastAll r productCategories 0)

/-! ## Farmer yield predictions (`farmerController.ts`) -/

/-- The fields of a farm document that `requestNewPrediction` touches:
its `_id` and its `owner` reference. -/
structure FarmDoc where
  id : String
  owner : String
deriving DecidableEq, Repr

/-- Crop snapshot embedded in a yield prediction. -/
structure CropSnapshot where
  name : String
  variety : String
  area : ℚ
deriving DecidableEq, Repr

/-- `prediction` sub-document of a yield prediction. -/
structure PredictionCore where
  expectedYield : Int
  yieldUnit : String
  lowerBound : Int
  upperBound : Int
  confidenceLevel : ℚ
deriving DecidableEq, Repr

/-- `factors.temperature` sub-document. -/
structure TempRange where
  tempMin : ℚ
  tempMax : ℚ
  tempAverage : ℚ
deriving DecidableEq, Repr

/-- `factors` sub-document of a yield prediction. -/
structure PredictionFactors where
  soilQuality : ℚ
  weatherConditions : String
  pestRisks : List String
  rainfall : Int
  temperature : TempRange
deriving DecidableEq, Repr

/-- One fertilizer recommendation. -/
structure Fertilizer where
  fertType : String
  amount : ℚ
  unit : String
  applicationTime : String
deriving DecidableEq, Repr

/-- `recommendations` sub-document of a yield prediction;
`harvestingDate` is a millisecond timestamp (`now + random * 7776000000`). -/
structure PredictionRecommendations where
  irrigationSchedule : String
  fertilizers : List Fertilizer
  pestManagement : List String
  harvestingDate : ℚ
deriving DecidableEq, Repr

/-- A `YieldPrediction` document. -/
structure YieldPredictionDoc where
  farm : String
  crop : CropSnapshot
  prediction : PredictionCore
  factors : PredictionFactors
  recommendations : PredictionRecommendations
  createdAt : Int
deriving DecidableEq, Repr

/-- Body of `requestNewPrediction` (`{ cropName, cropVariety, cropArea }`). -/
structure PredictionRequestBody where
  cropName : String
  cropVariety : String
  cropArea : ℚ
deriving DecidableEq, Repr

/-- `requestNewPrediction`: 401 without `req.user` (set by `protect`),
404 without a farm owned by the caller, otherwise builds the mock
prediction from nine `Math.random()` draws (indices 0–8, in source
evaluation order), recomputes `lowerBound`/`upperBound` as
`floor(expectedYield * 0.9)` / `floor(expectedYield * 1.1)`, stores it
and returns it with status 201.  `now` is `Date.now()`. -/
def requestNewPrediction (r : RandS) (user : Option TokenPayload)
    (body : PredictionRequestBody) (now : Int) (farms : List FarmDoc)
    (preds : List YieldPredictionDoc) :
    HResult YieldPredictionDoc × List YieldPredictionDoc :=
  match user with
  | none => (.err 401 "Not authorized", preds)
  | some u =>
    match farms.find? (fun f => f.owner = u.id) with
    | none => (.err 404 "Farm not found", preds)
    | some farm =>
      let expectedYield : Int := (r 0 * 5000).floor + 3000
      let mock : YieldPredictionDoc :=
        { farm := farm.id
          crop := { name := body.cropName, variety := body.cropVariety, area := body.cropArea }
          prediction :=
            { expectedYield := expectedYield
              yieldUnit := "kg/ha"
              lowerBound := ((expectedYield : ℚ) * 0.9).floor
              upperBound := ((expectedYield : ℚ) * 1.1).floor
              confidenceLevel := 0.85 }
          factors :=
            { soilQuality := r 1 * 10
              weatherConditions :=
                if (r 2 * 2).floor = 0 then "moderate rainfall" else "good sunlight"
              pestRisks := if r 3 > 0.5 then ["aphids", "whiteflies"] else ["none"]
              rainfall := (r 4 * 300).floor + 500
              temperature :=
                { tempMin := 15 + r 5 * 5
                  tempMax := 25 + r 6 * 5
                  tempAverage := 20 + r 7 * 5 } }
          recommendations :=
            { irrigationSchedule := "Twice weekly, 20mm per session"
              fertilizers :=
                [{ fertType := "Nitrogen-rich", amount := 50, unit := "kg/ha",
                   applicationTime := "Every 2 weeks" }]
              pestManagement :=
                ["Monitor for pests regularly", "Use organic pesticides if needed"]
              harvestingDate := (now : ℚ) + r 8 * 7776000000 }
          createdAt := now }
      (.ok mock, preds ++ [mock])

/-! ## Registration (`userController.ts`) -/

/-- A stored user document (the fields `register` writes). -/
structure UserDoc where
  id : String
  name : String
  email : String
  password : String
  role : UserRole
  location : String
  phoneNumber : Option String
deriving DecidableEq, Repr

/-- Body of `register`. -/
structure RegisterBody where
  name : String
  email : String
  password : String
  role : Option UserRole
  location : String
  phoneNumber : Option String
deriving DecidableEq, Repr

/-- The 201 response of `register`. -/
structure RegisterResponse where
  id : String
  name : String
  email : String
  role : UserRole
  location : String
  token : String
deriving DecidableEq, Repr

/-- `register`: 400 `'User already exists'` when `findOne({email})` hits,
otherwise hashes the password (`hash` stands for the bcrypt salt+hash),
creates the user (role defaulting to `FARMER` via `role || FARMER`) and
answers 201 with a fresh token (`sign` stands for `generateToken`).
Returns the response and the user collection afterwards. -/
def register (hash : String → String) (sign : String → UserRole → String)
    (newId : String) (body : RegisterBody) (db : List UserDoc) :
    HResult RegisterResponse × List UserDoc :=
  if db.any (fun u => u.email = body.email) then
    (.err 400 "User already exists", db)
  else
    let user : UserDoc :=
      { id := newId
        name := body.name
        email := body.email
        password := hash body.password
        role := body.role.getD .farmer
        location := body.location
        phoneNumber := body.phoneNumber }
    (.ok
      { id := newId, name := user.name, email := user.email, role := user.role,
        location := user.location, token := sign newId user.role },
      db ++ [user])

/-! ## NGO analytics (`ngoController.ts`) -/

/-- `accessRights` sub-document: `restrictedTo` may be absent
(`restrictedTo?.includes(...)` is guarded with optional chaining). -/
structure AccessRights where
  isPublic : Bool
  restrictedTo : Option (List String)
deriving DecidableEq, Repr

/-- `timeframe` sub-document (millisecond timestamps). -/
structure Timeframe where
  tfStart : Int
  tfEnd : Int
deriving DecidableEq, Repr

/-- `scope` sub-document. -/
structure AnalyticsScope where
  country : String
  region : String
  cropTypes : List String
deriving DecidableEq, Repr

/-- A stored analytics document. -/
structure AnalyticsDoc where
  id : String
  title : String
  description : String
  analyticsType : String
  timeframe : Timeframe
  scope : AnalyticsScope
  metrics : List String
  visualizations : List String
  insights : Option (List String)
  recommendations : Option (List String)
  sources : Option (List String)
  accessRights : AccessRights
deriving DecidableEq, Repr

/-- Whether the caller may read a record:
`accessRights.public || accessRights.restrictedTo contains userId`
(an absent `restrictedTo` grants nobody). -/
def analyticsAccessOk (uid : String) (a : AnalyticsDoc) : Bool :=
  a.accessRights.isPublic || (a.accessRights.restrictedTo.getD []).contains uid

/-- Query-string filters of `getAnalytics` (`none` = parameter absent). -/
structure AnalyticsQuery where
  queryType : Option String := none
  country : Option String := none
  region : Option String := none
  cropType : Option String := none
  startDate : Option Int := none
  endDate : Option Int := none
deriving DecidableEq, Repr

/-- The MongoDB filter `getAnalytics` builds from the query string
(type, scope.country, scope.region, cropTypes membership,
`timeframe.start >= startDate`, `timeframe.end <= endDate`). -/
def matchesAnalyticsQuery (q : AnalyticsQuery) (a : AnalyticsDoc) : Bool :=
  (match q.queryType with | none => true | some t => a.analyticsType = t) &&
  (match q.country with | none => true | some c => a.scope.country = c) &&
  (match q.region with | none => true | some rg => a.scope.region = rg) &&
  (match q.cropType with | none => true | some ct => a.scope.cropTypes.contains ct) &&
  (match q.startDate with | none => true | some sd => sd ≤ a.timeframe.tfStart) &&
  (match q.endDate with | none => true | some ed => a.timeframe.tfEnd ≤ ed)

/-- `getAnalytics`: 401 without `user-id` header; else `find` with the
query filters plus the access `$or` (`accessRights.public: true` or
`accessRights.restrictedTo` containing the caller).  The `createdAt`
sort does not change membership and is not modelled. -/
def getAnalytics (headerUserId : Option String) (q : AnalyticsQuery)
    (db : List AnalyticsDoc) : HResult (List AnalyticsDoc) :=
  match headerUserId with
  | none => .err 401 "Not authorized"
  | some uid =>
    .ok (db.filter fun a => matchesAnalyticsQuery q a && analyticsAccessOk uid a)

/-- `getAnalyticsById`: 401 without `user-id` header, 400 on invalid
ObjectId, 404 when absent, 403 when the record is non-public and the
caller is not in `restrictedTo`, else the record. -/
def getAnalyticsById (isValid : String → Bool) (headerUserId : Option String)
    (analyticsId : String) (db : List AnalyticsDoc) : HResult AnalyticsDoc :=
  match headerUserId with
  | none => .err 401 "Not authorized"
  | some uid =>
    if ¬ isValid analyticsId then .err 400 "Invalid analytics ID"
    else
      match db.find? (fun a => a.id = analyticsId) with
      | none => .err 404 "Analytics not found"
      | some a =>
        if !a.accessRights.isPublic &&
            !(a.accessRights.restrictedTo.getD []).contains uid then
          .err 403 "Not authorized to access these analytics"
        else .ok a

/-- Body of `createAnalytics` — the fields its destructuring reads. -/
structure AnalyticsCreateBody where
  title : String
  description : String
  analyticsType : String
  timeframe : Timeframe
  scope : AnalyticsScope
  metrics : List String
  visualizations : List String
  insights : Option (List String)
  recommendations : Option (List String)
  sources : Option (List String)
  accessRights : AccessRights
deriving DecidableEq, Repr

/-- `createAnalytics`: 401 without `user-id` header; otherwise stores the
body with `restrictedTo` rewritten to
`public ? undefined : [...(restrictedTo || []), userId]` and answers 201. -/
def createAnalytics (headerUserId : Option String) (newId : String)
    (body : AnalyticsCreateBody) (db : List AnalyticsDoc) :
    HResult AnalyticsDoc × List AnalyticsDoc :=
  match headerUserId with
  | none => (.err 401 "Not authorized", db)
  | some uid =>
    let updatedAccessRights : AccessRights :=
      { body.accessRights with
        restrictedTo :=
          if body.accessRights.isPublic then none
          else some ((body.accessRights.restrictedTo.getD []) ++ [uid]) }
    let doc : AnalyticsDoc :=
      { id := newId
        title := body.title
        description := body.description
        analyticsType := body.analyticsType
        timeframe := body.timeframe
        scope := body.scope
        metrics := body.metrics
        visualizations := body.visualizations
        insights := body.insights
        recommendations := body.recommendations
        sources := body.sources
        accessRights := updatedAccessRights }
    (.ok doc, db ++ [doc])

/-- Body of `updateAnalytics`: an arbitrary subset of the document's
fields (`none` = key absent).  `idField` stands for a `_id` key, which
the `forEach` explicitly skips. -/
structure AnalyticsUpdateBody where
  idField : Option String := none
  title : Option String := none
  description : Option String := none
  analyticsType : Option String := none
  timeframe : Option Timeframe := none
  scope : Option AnalyticsScope := none
  metrics : Option (List String) := none
  visualizations : Option (List String) := none
  insights : Option (List String) := none
  recommendations : Option (List String) := none
  sources : Option (List String) := none
  accessRights : Option AccessRights := none
deriving DecidableEq, Repr

/-- The `Object.keys(req.body).forEach` assignment of `updateAnalytics`:
every present key except `_id` overwrites the document field. -/
def applyAnalyticsUpdate (a : AnalyticsDoc) (u : AnalyticsUpdateBody) :
    AnalyticsDoc :=
  { a with
    title := u.title.getD a.title
    description := u.description.getD a.description
    analyticsType := u.analyticsType.getD a.analyticsType
    timeframe := u.timeframe.getD a.timeframe
    scope := u.scope.getD a.scope
    metrics := u.metrics.getD a.metrics
    visualizations := u.visualizations.getD a.visualizations
    insights := u.insights.orElse (fun _ => a.insights)
    recommendations := u.recommendations.orElse (fun _ => a.recommendations)
    sources := u.sources.orElse (fun _ => a.sources)
    accessRights := u.accessRights.getD a.accessRights }

/-- Replace the analytics document with the given `_id` (model of
`analytics.save()`). -/
def replaceAnalyticsById (db : List AnalyticsDoc) (aid : String)
    (a' : AnalyticsDoc) : List AnalyticsDoc :=
  db.map fun a => if a.id = aid then a' else a

/-- The "Ensure user maintains access after update" step of
`updateAnalytics`: when the updated record is non-public and the caller
is no longer in `restrictedTo`, append the caller. -/
def ensureWriterAccess (uid : String) (a : AnalyticsDoc) : AnalyticsDoc :=
  if !a.accessRights.isPublic &&
      !(a.accessRights.restrictedTo.getD []).contains uid then
    { a with
      accessRights :=
        { a.accessRights with
          restrictedTo := some ((a.accessRights.restrictedTo.getD []) ++ [uid]) } }
  else a

/-- `updateAnalytics`: 401 without `user-id` header, 400 on invalid
ObjectId, 404 when absent, 403 unless the caller is in `restrictedTo`;
then applies the body (skipping `_id`), runs `ensureWriterAccess` and
saves. -/
def updateAnalytics (isValid : String → Bool) (headerUserId : Option String)
    (analyticsId : String) (body : AnalyticsUpdateBody)
    (db : List AnalyticsDoc) : HResult AnalyticsDoc × List AnalyticsDoc :=
  match headerUserId with
  | none => (.err 401 "Not authorized", db)
  | some uid =>
    if ¬ isValid analyticsId then (.err 400 "Invalid analytics ID", db)
    else
      match db.find? (fun a => a.id = analyticsId) with
      | none => (.err 404 "Analytics not found", db)
      | some a =>
        if ¬ (a.accessRights.restrictedTo.getD []).contains uid then
          (.err 403 "Not authorized to update these analytics", db)
        else
          let a'' := ensureWriterAccess uid (applyAnalyticsUpdate a body)
          (.ok a'', replaceAnalyticsById db analyticsId a'')

/-- The JSON projection returned by `exportAnalyticsData` for a
non-`csv` format (`insights`, `recommendations`, `sources` defaulted to
`[]`; `exportedAt` is the current time). -/
structure AnalyticsExportJson where
  title : String
  description : String
  analyticsType : String
  timeframe : Timeframe
  scope : AnalyticsScope
  metrics : List String
  insights : List String
  recommendations : List String
  exportedAt : Int
  sources : List String
deriving DecidableEq, Repr

/-- Response of `exportAnalyticsData`: either an error, the CSV-path
placeholder `{ message, data }`, or the JSON projection. -/
inductive ExportResult where
  | error : Nat → String → ExportResult
  | csvPlaceholder : String → AnalyticsDoc → ExportResult
  | jsonExport : AnalyticsExportJson → ExportResult
deriving DecidableEq, Repr

/-- `format = req.query.format || 'json'` of `exportAnalyticsData`: an
absent or empty (falsy) parameter becomes `'json'`. -/
def exportFormat (queryFormat : Option String) : String :=
  match queryFormat with
  | none => "json"
  | some f => if f = "" then "json" else f

/-- `exportAnalyticsData`: 401/400/404/403 as in `getAnalyticsById`;
then the `csv` branch answers the JSON placeholder `{ message, data }`
and every other format the JSON projection. -/
def exportAnalyticsData (isValid : String → Bool)
    (headerUserId : Option String) (analyticsId : String)
    (queryFormat : Option String) (now : Int) (db : List AnalyticsDoc) :
    ExportResult :=
  let format : String := exportFormat queryFormat
  match headerUserId with
  | none => .error 401 "Not authorized"
  | some uid =>
    if ¬ isValid analyticsId then .error 400 "Invalid analytics ID"
    else
      match db.find? (fun a => a.id = analyticsId) with
      | none => .error 404 "Analytics not found"
      | some a =>
        if !a.accessRights.isPublic &&
            !(a.accessRights.restrictedTo.getD []).contains uid then
          .error 403 "Not authorized to access these analytics"
        else if format = "csv" then
          .csvPlaceholder "CSV export would be generated here" a
        else
          .jsonExport
            { title := a.title
              description := a.description
              analyticsType := a.analyticsType
              timeframe := a.timeframe
              scope := a.scope
              metrics := a.metrics
              insights := a.insights.getD []
              recommendations := a.recommendations.getD []
              exportedAt := now
              sources := a.sources.getD [] }

/-! ## Route composition (`vendorRoutes.ts`, `ngoRoutes.ts`)

`router.use(protect, vendorOnly)` / `router.use(protect, ngoOnly)`:
the middleware chain runs before the handler; a rejection is the route's
response and the handler never runs. -/

/-- `DELETE /api/vendors/products/:productId` as routed:
`protect` → `vendorOnly` → `deleteProduct`.  Note that the handler reads
the `user-id` header, not the verified `req.user`. -/
def vendorDeleteRoute (verify : String → Option TokenPayload)
    (isValid : String → Bool) (authHeader : Option String)
    (headerUserId : Option String) (productId : String)
    (db : List ProductDoc) : HResult String × List ProductDoc :=
  match protect verify authHeader with
  | .reject s m => (.err s m, db)
  | .proceed u =>
    match vendorOnly (some u) with
    | .reject s m => (.err s m, db)
    | .proceed _ => deleteProduct isValid headerUserId productId db

/-- `GET /api/ngos/analytics` as routed: `protect` → `ngoOnly` →
`getAnalytics`.  The handler reads the `user-id` header, not `req.user`. -/
def ngoGetAnalyticsRoute (verify : String → Option TokenPayload)
    (authHeader : Option String) (headerUserId : Option String)
    (q : AnalyticsQuery) (db : List AnalyticsDoc) :
    HResult (List AnalyticsDoc) :=
  match protect verify authHeader with
  | .reject s m => .err s m
  | .proceed u =>
    match ngoOnly (some u) with
    | .reject s m => .err s m
    | .proceed _ => getAnalytics headerUserId q db

/-! ## Concrete sample values (used by witnesses and counterexamples) -/

/-- A concrete `jwt.verify` instance: one valid vendor token. -/
def demoVerify : String → Option TokenPayload := fun t =>
  if t = "goodtoken" then some { id := "tokenSubject", role := .vendor } else none

/-- A concrete `jwt.verify` instance: one valid NGO token. -/
def demoNgoVerify : String → Option TokenPayload := fun t =>
  if t = "ngotoken" then some { id := "tokenSubject", role := .ngo } else none

/-- An `ObjectId.isValid` instance accepting every id. -/
def allValid : String → Bool := fun _ => true

def sampleLocation : ProdLocation :=
  { country := "KE", region := "Rift", coordinates := none }

def sampleProduct : ProductDoc :=
  { id := "p1", seller := "sellerA", farm := none, name := "Maize",
    description := "Fresh maize", category := .grains, quantity := 100,
    unit := "kg", price := 50, currency := "USD", harvestDate := 0,
    expiryEstimate := 2592000000, status := .available,
    location := sampleLocation, images := none,
    qualityCertification := none, organicCertification := none,
    storageRequirements := none }

def sampleCreateBody : CreateProductBody :=
  { name := "Maize", description := "Fresh maize", category := .grains,
    quantity := 100, unit := "kg", price := 50, currency := none,
    harvestDate := 0, expiryEstimate := 2592000000,
    location := sampleLocation, farmId := none, images := none,
    qualityCertification := none, organicCertification := none,
    storageRequirements := none }

/-- A non-public analytics record readable only by `memberA`. -/
def secretAnalytics : AnalyticsDoc :=
  { id := "a1", title := "Yield study", description := "Regional yields",
    analyticsType := "yield_trends",
    timeframe := { tfStart := 0, tfEnd := 1000 },
    scope := { country := "KE", region := "Rift", cropTypes := ["maize"] },
    metrics := ["avg_yield"], visualizations := [], insights := none,
    recommendations := none, sources := none,
    accessRights := { isPublic := false, restrictedTo := some ["memberA"] } }

def zeroRand : RandS := fun _ => 0

def halfRand : RandS := fun _ => 1/2

def sampleFarm : FarmDoc := { id := "farm1", owner := "f1" }

def sampleCropBody : PredictionRequestBody :=
  { cropName := "Maize", cropVariety := "H614", cropArea := 2 }

def sampleUser : UserDoc :=
  { id := "u1", name := "Alice", email := "alice@example.com",
    password := "hashed", role := .farmer, location := "Nairobi",
    phoneNumber := none }

def sampleRegisterBody : RegisterBody :=
  { name := "Bob", email := "alice@example.com", password := "pw",
    role := some .vendor, location := "Nairobi", phoneNumber := none }

/-! ## C4: the `protect` middleware -/

/-- **C4.** For every request to a protected route whose Authorization
header is missing, does not start with `'Bearer'`, or carries a token
that fails JWT verification, `protect` rejects with a 401 error (a
`reject` means the route handler is not invoked); when the extracted
token verifies, it attaches the decoded `{id, role}` payload and passes
control onward. -/
theorem protect_verifies_bearer_tokens (verify : String → Option TokenPayload) :
    (protect verify none = .reject 401 "Not authorized, no token provided") ∧
    (∀ a : String, jsStartsWith a "Bearer" = false →
      protect verify (some a) = .reject 401 "Not authorized, no token provided") ∧
    (∀ a t, jsStartsWith a "Bearer" = true → (jsSplit a ' ')[1]? = some t →
      t ≠ "" → verify t = none →
      protect verify (some a) = .reject 401 "Not authorized, invalid token") ∧
    (∀ a t p, jsStartsWith a "Bearer" = true → (jsSplit a ' ')[1]? = some t →
      t ≠ "" → verify t = some p →
      protect verify (some a) = .proceed p) := by
  refine ⟨rfl, ?_, ?_, ?_⟩
  · intro a ha
    simp [protect, ha]
  · intro a t ha ht hne hv
    simp [protect, ha, ht, hne, hv]
  · intro a t p ha ht hne hv
    simp [protect, ha, ht, hne, hv]

/-- Witness for C4 at concrete inputs. -/
theorem protect_verifies_bearer_tokens_witness :
    protect demoVerify none = .reject 401 "Not authorized, no token provided" ∧
    protect demoVerify (some "Token abc") =
      .reject 401 "Not authorized, no token provided" ∧
    protect demoVerify (some "Bearer badtoken") =
      .reject 401 "Not authorized, invalid token" ∧
    protect demoVerify (some "Bearer goodtoken") =
      .proceed { id := "tokenSubject", role := .vendor } := by
  refine ⟨(protect_verifies_bearer_tokens demoVerify).1, ?_, ?_, ?_⟩
  · exact (protect_verifies_bearer_tokens demoVerify).2.1 "Token abc" (by decide)
  · exact (protect_verifies_bearer_tokens demoVerify).2.2.1 "Bearer badtoken"
      "badtoken" (by decide) (by decide) (by decide) (by decide)
  · exact (protect_verifies_bearer_tokens demoVerify).2.2.2 "Bearer goodtoken"
      "goodtoken" _ (by decide) (by decide) (by decide) (by decide)

/-! ## C5: the role gate -/

/-- **C5.** A request that passed token verification but whose decoded
role is not in the route's allowed-role set is rejected with a 403
forbidden error (a `reject` means the route handler is not invoked). -/
theorem role_gate_rejects_forbidden_roles (roles : List UserRole)
    (u : TokenPayload) (h : roles.contains u.role = false) :
    authorize roles (some u) =
      .reject 403 ("Access denied. Required role: " ++
        String.intercalate " or " (roles.map roleValue)) := by
  have h' : u.role ∉ roles := by simpa using h
  simp [authorize, h']

/-- Witness for C5: a vendor-role token on the farmer-only gate yields
403. -/
theorem role_gate_rejects_forbidden_roles_witness :
    farmerOnly (some { id := "v1", role := .vendor }) =
      .reject 403 ("Access denied. Required role: " ++
        String.intercalate " or " ([UserRole.farmer].map roleValue)) :=
  role_gate_rejects_forbidden_roles [.farmer] { id := "v1", role := .vendor }
    (by decide)

/-! ## C6: duplicate registration -/

/-- **C6.** A register request whose email equals the email of an
existing user returns a 400 error with message `'User already exists'`
and leaves the stored user set unchanged. -/
theorem register_duplicate_email_rejected (hash : String → String)
    (sign : String → UserRole → String) (newId : String)
    (body : RegisterBody) (db : List UserDoc) (u : UserDoc)
    (hu : u ∈ db) (he : u.email = body.email) :
    register hash sign newId body db = (.err 400 "User already exists", db) := by
  have hany : db.any (fun v => v.email = body.email) = true :=
    List.any_eq_true.mpr ⟨u, hu, by simp [he]⟩
  simp [register, hany]

/-- Witness for C6 at concrete inputs. -/
theorem register_duplicate_email_rejected_witness :
    sampleUser ∈ [sampleUser] ∧
    sampleUser.email = sampleRegisterBody.email ∧
    register (fun p => p) (fun _ _ => "tok") "u2" sampleRegisterBody [sampleUser] =
      (.err 400 "User already exists", [sampleUser]) :=
  ⟨by decide, by decide,
    register_duplicate_email_rejected (fun p => p) (fun _ _ => "tok") "u2"
      sampleRegisterBody [sampleUser] sampleUser (by decide) (by decide)⟩

/-! ## C2: caller identity comes from the `user-id` header -/

/-- **C2.** In the vendor product and NGO analytics handlers the caller
identity used for authorization/ownership checks is the unauthenticated
`user-id` header, not the verified token's subject: below, the bearer
token (and its decoded subject `tokenSubject`) is FIXED in each pair of
requests, the requests differ only in the `user-id` header, and the
outcomes differ — `deleteProduct` lets the header matching the stored
`seller` delete the product and rejects the other header with 403, and
`getAnalytics` shows a restricted record exactly when the header (never
the token subject) is in `restrictedTo`. -/
theorem caller_identity_from_unauthenticated_header :
    (vendorDeleteRoute demoVerify allValid (some "Bearer goodtoken")
        (some "sellerA") "p1" [sampleProduct] =
      (.ok "Product removed", [])) ∧
    (vendorDeleteRoute demoVerify allValid (some "Bearer goodtoken")
        (some "someoneElse") "p1" [sampleProduct] =
      (.err 403 "Not authorized to delete this product", [sampleProduct])) ∧
    (ngoGetAnalyticsRoute demoNgoVerify (some "Bearer ngotoken")
        (some "memberA") {} [secretAnalytics] = .ok [secretAnalytics]) ∧
    (ngoGetAnalyticsRoute demoNgoVerify (some "Bearer ngotoken")
        (some "someoneElse") {} [secretAnalytics] = .ok []) ∧
    (demoVerify "goodtoken" = some { id := "tokenSubject", role := .vendor } ∧
      demoNgoVerify "ngotoken" = some { id := "tokenSubject", role := .ngo }) := by
  refine ⟨by decide, by decide, by decide, by decide, by decide, by decide⟩

/-! ## C1 and C9: product creation status and the update frame -/

/-- Inversion of a successful `updateProduct`: the response is the stored
product with the filtered `$set` applied, and the ownership check passed. -/
theorem updateProduct_ok_inv {iv : String → Bool} {h? : Option String}
    {pid : String} {ub : ProductUpdateBody} {db : List ProductDoc}
    {p' : ProductDoc}
    (h : (updateProduct iv h? pid ub db).1 = .ok p') :
    ∃ uid p, h? = some uid ∧ db.find? (fun q => q.id = pid) = some p ∧
      p.seller = uid ∧ p' = applyProductUpdate p ub := by
  cases h? with
  | none => simp [updateProduct] at h
  | some uid =>
    simp only [updateProduct] at h
    split at h
    · simp at h
    · split at h
      · simp at h
      · next p hp =>
        split at h
        · simp at h
        · next hs =>
          simp only at h
          exact ⟨uid, p, rfl, hp, not_not.mp hs,
            (HResult.ok.inj h).symm⟩

/-- The concrete document `createProduct` builds from `sampleCreateBody`
for seller `sellerA` and fresh id `p2`. -/
def sampleCreated : ProductDoc :=
  { id := "p2", seller := "sellerA", farm := none, name := "Maize",
    description := "Fresh maize", category := .grains, quantity := 100,
    unit := "kg", price := 50, currency := "USD", harvestDate := 0,
    expiryEstimate := 2592000000, status := .available,
    location := sampleLocation, images := none,
    qualityCertification := none, organicCertification := none,
    storageRequirements := none }

/-- **C1 counterexample.** The claim "status is never transitioned by any
code path" is false: `updateProduct` filters only `seller` and `_id` out
of the `$set`, so a body carrying a `status` key changes the stored
status — here a stored 'available' product becomes 'sold'. -/
theorem product_status_transition_counterexample :
    sampleProduct.status = .available ∧
    (updateProduct allValid (some "sellerA") "p1"
        { status := some .sold } [sampleProduct]).2 =
      [{ sampleProduct with status := .sold }] ∧
    ({ sampleProduct with status := .sold } : ProductDoc).status ≠
      sampleProduct.status :=
  ⟨rfl, by decide, by decide⟩

/-- **C1 (amended).** A product's status is set to 'available' at
creation — `createProduct` never reads a status from the request body —
and `updateProduct` leaves the stored status unchanged exactly when the
body carries no `status` key; since its `$set` filters out only `seller`
and `_id`, a body with a `status` key does transition the status. -/
theorem product_status_set_at_creation_mutable_by_update :
    (∀ uid newId body db p,
      (createProduct (some uid) newId body db).1 = .ok p →
      p.status = .available) ∧
    (∀ iv h? pid ub db p', ub.status = none →
      (updateProduct iv h? pid ub db).1 = .ok p' →
      ∃ p, db.find? (fun q => q.id = pid) = some p ∧
        p'.status = p.status) := by
  constructor
  · intro uid newId body db p h
    simp only [createProduct] at h
    rw [← HResult.ok.inj h]
  · intro iv h? pid ub db p' hnone hok
    obtain ⟨uid, p, -, hfind, -, hp'⟩ := updateProduct_ok_inv hok
    exact ⟨p, hfind, by simp [hp', applyProductUpdate, hnone]⟩

/-- Witness for C1 (amended) at concrete inputs. -/
theorem product_status_set_at_creation_mutable_by_update_witness :
    ((createProduct (some "sellerA") "p2" sampleCreateBody []).1 =
        .ok sampleCreated ∧
      sampleCreated.status = .available) ∧
    (ProductUpdateBody.status { name := some "Renamed" } = none ∧
      (updateProduct allValid (some "sellerA") "p1"
          { name := some "Renamed" } [sampleProduct]).1 =
        .ok { sampleProduct with name := "Renamed" } ∧
      ∃ p, [sampleProduct].find? (fun q => q.id = "p1") = some p ∧
        ({ sampleProduct with name := "Renamed" } : ProductDoc).status =
          p.status) :=
  ⟨⟨by decide,
    product_status_set_at_creation_mutable_by_update.1 "sellerA" "p2"
      sampleCreateBody [] sampleCreated (by decide)⟩,
    by decide, by decide,
    product_status_set_at_creation_mutable_by_update.2 allValid
      (some "sellerA") "p1" { name := some "Renamed" } [sampleProduct]
      { sampleProduct with name := "Renamed" } (by decide) (by decide)⟩

/-- **C9.** A successful `updateProduct` frames out exactly `seller` and
`_id`: they are unchanged whatever the body carries (including explicit
`seller`/`_id` keys), and every other supplied field is overwritten with
the body's value. -/
theorem updateProduct_applies_body_except_seller_and_id
    (iv : String → Bool) (h? : Option String) (pid : String)
    (ub : ProductUpdateBody) (db : List ProductDoc) (p p' : ProductDoc)
    (hfind : db.find? (fun q => q.id = pid) = some p)
    (hok : (updateProduct iv h? pid ub db).1 = .ok p') :
    (p'.seller = p.seller ∧ p'.id = p.id) ∧
    (∀ v, ub.farm = some v → p'.farm = v) ∧
    (∀ v, ub.name = some v → p'.name = v) ∧
    (∀ v, ub.description = some v → p'.description = v) ∧
    (∀ v, ub.category = some v → p'.category = v) ∧
    (∀ v, ub.quantity = some v → p'.quantity = v) ∧
    (∀ v, ub.unit = some v → p'.unit = v) ∧
    (∀ v, ub.price = some v → p'.price = v) ∧
    (∀ v, ub.currency = some v → p'.currency = v) ∧
    (∀ v, ub.harvestDate = some v → p'.harvestDate = v) ∧
    (∀ v, ub.expiryEstimate = some v → p'.expiryEstimate = v) ∧
    (∀ v, ub.status = some v → p'.status = v) ∧
    (∀ v, ub.location = some v → p'.location = v) ∧
    (∀ v, ub.images = some v → p'.images = some v) ∧
    (∀ v, ub.qualityCertification = some v → p'.qualityCertification = some v) ∧
    (∀ v, ub.organicCertification = some v → p'.organicCertification = some v) ∧
    (∀ v, ub.storageRequirements = some v → p'.storageRequirements = some v) := by
  obtain ⟨uid, p2, -, hfind2, -, hp'⟩ := updateProduct_ok_inv hok
  rw [hfind] at hfind2
  cases Option.some.inj hfind2
  subst hp'
  refine ⟨⟨rfl, rfl⟩, ?_, ?_, ?_, ?_, ?_, ?_, ?_, ?_, ?_, ?_, ?_, ?_, ?_, ?_, ?_, ?_⟩ <;>
    intro v hv <;> simp [applyProductUpdate, hv, Option.orElse]

/-- Witness for C9: an update carrying `seller`, `_id`, `name` and
`status` keys changes `name` and `status` but not `seller` or `_id`. -/
theorem updateProduct_applies_body_except_seller_and_id_witness :
    [sampleProduct].find? (fun q => q.id = "p1") = some sampleProduct ∧
    (updateProduct allValid (some "sellerA") "p1"
        { sellerField := some "attacker", idField := some "px",
          name := some "Renamed", status := some .sold }
        [sampleProduct]).1 =
      .ok { sampleProduct with name := "Renamed", status := .sold } ∧
    ({ sampleProduct with name := "Renamed", status := .sold } : ProductDoc).seller =
        sampleProduct.seller ∧
    ({ sampleProduct with name := "Renamed", status := .sold } : ProductDoc).id =
        sampleProduct.id := by
  refine ⟨by decide, by decide, ?_, ?_⟩
  · exact (updateProduct_applies_body_except_seller_and_id allValid
      (some "sellerA") "p1"
      { sellerField := some "attacker", idField := some "px",
        name := some "Renamed", status := some .sold }
      [sampleProduct] sampleProduct
      { sampleProduct with name := "Renamed", status := .sold }
      (by decide) (by decide)).1.1
  · exact (updateProduct_applies_body_except_seller_and_id allValid
      (some "sellerA") "p1"
      { sellerField := some "attacker", idField := some "px",
        name := some "Renamed", status := some .sold }
      [sampleProduct] sampleProduct
      { sampleProduct with name := "Renamed", status := .sold }
      (by decide) (by decide)).1.2

/-! ## C3: non-public analytics are invisible outside `restrictedTo` -/

/-- **C3.** A non-public analytics record whose `restrictedTo` does not
contain the caller is invisible to that caller: `getAnalytics` excludes
it from the returned list for every combination of query filters, and
`getAnalyticsById` and `exportAnalyticsData` answer 403 instead of
returning it. -/
theorem nonpublic_analytics_invisible (iv : String → Bool) (uid : String)
    (q : AnalyticsQuery) (db : List AnalyticsDoc) (a : AnalyticsDoc)
    (hpub : a.accessRights.isPublic = false)
    (hmem : (a.accessRights.restrictedTo.getD []).contains uid = false) :
    (∀ l, getAnalytics (some uid) q db = .ok l → a ∉ l) ∧
    (db.find? (fun x => x.id = a.id) = some a → iv a.id = true →
      getAnalyticsById iv (some uid) a.id db =
        .err 403 "Not authorized to access these analytics") ∧
    (∀ fmt now, db.find? (fun x => x.id = a.id) = some a → iv a.id = true →
      exportAnalyticsData iv (some uid) a.id fmt now db =
        .error 403 "Not authorized to access these analytics") := by
  have hmem' : uid ∉ a.accessRights.restrictedTo.getD [] := by simpa using hmem
  have hacc : analyticsAccessOk uid a = false := by
    simp [analyticsAccessOk, hpub, hmem']
  refine ⟨?_, ?_, ?_⟩
  · intro l hl ha
    simp only [getAnalytics] at hl
    rw [← HResult.ok.inj hl] at ha
    have := (List.mem_filter.mp ha).2
    rw [Bool.and_eq_true] at this
    rw [hacc] at this
    exact Bool.false_ne_true this.2
  · intro hfind hiv
    simp [getAnalyticsById, hfind, hiv, hpub, hmem']
  · intro fmt now hfind hiv
    simp [exportAnalyticsData, hfind, hiv, hpub, hmem']

/-- Witness for C3 at concrete inputs. -/
theorem nonpublic_analytics_invisible_witness :
    secretAnalytics.accessRights.isPublic = false ∧
    (secretAnalytics.accessRights.restrictedTo.getD []).contains
        "someoneElse" = false ∧
    ((∀ l, getAnalytics (some "someoneElse") {} [secretAnalytics] = .ok l →
        secretAnalytics ∉ l) ∧
      ([secretAnalytics].find? (fun x => x.id = secretAnalytics.id) =
          some secretAnalytics →
        allValid secretAnalytics.id = true →
        getAnalyticsById allValid (some "someoneElse") secretAnalytics.id
            [secretAnalytics] =
          .err 403 "Not authorized to access these analytics") ∧
      (∀ fmt now,
        [secretAnalytics].find? (fun x => x.id = secretAnalytics.id) =
            some secretAnalytics →
        allValid secretAnalytics.id = true →
        exportAnalyticsData allValid (some "someoneElse") secretAnalytics.id
            fmt now [secretAnalytics] =
          .error 403 "Not authorized to access these analytics")) :=
  ⟨by decide, by decide,
    nonpublic_analytics_invisible allValid "someoneElse" {} [secretAnalytics]
      secretAnalytics (by decide) (by decide)⟩

/-! ## C8: CSV export is unimplemented -/

/-- **C8.** For an accessible analytics record `exportAnalyticsData`
never produces CSV: with `format=csv` it answers the JSON placeholder
`{ message, data }`, and with any format other than `csv` (after the
`|| 'json'` default) it answers the JSON projection of the record. -/
theorem export_csv_is_json_placeholder (iv : String → Bool) (uid aid : String)
    (now : Int) (db : List AnalyticsDoc) (a : AnalyticsDoc)
    (hfind : db.find? (fun x => x.id = aid) = some a)
    (hiv : iv aid = true)
    (hacc : analyticsAccessOk uid a = true) :
    (exportAnalyticsData iv (some uid) aid (some "csv") now db =
      .csvPlaceholder "CSV export would be generated here" a) ∧
    (∀ fmt, exportFormat fmt ≠ "csv" →
      exportAnalyticsData iv (some uid) aid fmt now db =
        .jsonExport
          { title := a.title
            description := a.description
            analyticsType := a.analyticsType
            timeframe := a.timeframe
            scope := a.scope
            metrics := a.metrics
            insights := a.insights.getD []
            recommendations := a.recommendations.getD []
            exportedAt := now
            sources := a.sources.getD [] }) := by
  simp only [analyticsAccessOk, Bool.or_eq_true] at hacc
  have hc : a.accessRights.isPublic = true ∨
      uid ∈ a.accessRights.restrictedTo.getD [] := by
    rcases hacc with h | h
    · exact Or.inl h
    · exact Or.inr (by simpa using h)
  constructor
  · rcases hc with h | h <;>
      simp [exportAnalyticsData, exportFormat, hfind, hiv, h]
  · intro fmt hfmt
    rcases hc with h | h <;>
      simp [exportAnalyticsData, hfind, hiv, h, hfmt]

/-- Witness for C8 at concrete inputs (`memberA` may read
`secretAnalytics`; an `xml` format request falls into the JSON branch). -/
theorem export_csv_is_json_placeholder_witness :
    [secretAnalytics].find? (fun x => x.id = "a1") = some secretAnalytics ∧
    allValid "a1" = true ∧
    analyticsAccessOk "memberA" secretAnalytics = true ∧
    (exportAnalyticsData allValid (some "memberA") "a1" (some "csv") 5
        [secretAnalytics] =
      .csvPlaceholder "CSV export would be generated here" secretAnalytics) ∧
    (∀ fmt, exportFormat fmt ≠ "csv" →
      exportAnalyticsData allValid (some "memberA") "a1" fmt 5
          [secretAnalytics] =
        .jsonExport
          { title := secretAnalytics.title
            description := secretAnalytics.description
            analyticsType := secretAnalytics.analyticsType
            timeframe := secretAnalytics.timeframe
            scope := secretAnalytics.scope
            metrics := secretAnalytics.metrics
            insights := secretAnalytics.insights.getD []
            recommendations := secretAnalytics.recommendations.getD []
            exportedAt := 5
            sources := secretAnalytics.sources.getD [] }) :=
  ⟨by decide, by decide, by decide,
    (export_csv_is_json_placeholder allValid "memberA" "a1" 5 [secretAnalytics]
        secretAnalytics (by decide) (by decide) (by decide)).1,
    (export_csv_is_json_placeholder allValid "memberA" "a1" 5 [secretAnalytics]
        secretAnalytics (by decide) (by decide) (by decide)).2⟩

/-! ## C10: the writer keeps access to non-public analytics -/

/-- After `ensureWriterAccess`, a non-public record contains the caller
in `restrictedTo`. -/
theorem ensureWriterAccess_mem (uid : String) (a : AnalyticsDoc)
    (hpub : (ensureWriterAccess uid a).accessRights.isPublic = false) :
    uid ∈ (ensureWriterAccess uid a).accessRights.restrictedTo.getD [] := by
  unfold ensureWriterAccess at hpub ⊢
  by_cases hc : (!a.accessRights.isPublic &&
      !(a.accessRights.restrictedTo.getD []).contains uid) = true
  · rw [if_pos hc]
    simp
  · rw [if_neg hc] at hpub ⊢
    cases hcc : (a.accessRights.restrictedTo.getD []).contains uid with
    | true => simpa using hcc
    | false =>
      exact absurd
        (show (!a.accessRights.isPublic &&
            !(a.accessRights.restrictedTo.getD []).contains uid) = true by
          rw [hpub, hcc]; rfl) hc

/-- Inversion of a successful `updateAnalytics`: the caller was in the
stored record's `restrictedTo`, and the response is the updated record
after `ensureWriterAccess`. -/
theorem updateAnalytics_ok_inv {iv : String → Bool} {h? : Option String}
    {aid : String} {body : AnalyticsUpdateBody} {db : List AnalyticsDoc}
    {doc : AnalyticsDoc} {rest : List AnalyticsDoc}
    (h : updateAnalytics iv h? aid body db = (.ok doc, rest)) :
    ∃ uid a, h? = some uid ∧ db.find? (fun x => x.id = aid) = some a ∧
      (a.accessRights.restrictedTo.getD []).contains uid = true ∧
      doc = ensureWriterAccess uid (applyAnalyticsUpdate a body) := by
  cases h? with
  | none => simp [updateAnalytics] at h
  | some uid =>
    simp only [updateAnalytics] at h
    split at h
    · simp at h
    · split at h
      · simp at h
      · next a ha =>
        split at h
        · simp at h
        · next hcont =>
          have hdoc := congrArg Prod.fst h
          simp only at hdoc
          exact ⟨uid, a, rfl, ha, not_not.mp hcont, (HResult.ok.inj hdoc).symm⟩

/-- **C10.** A caller creating or updating a non-public analytics record
always ends up in its access list: `createAnalytics` appends the
caller's id to `restrictedTo` whenever `accessRights.public` is false,
and a successful `updateAnalytics` whose saved record is non-public
always has the caller in its `restrictedTo` (the handler re-inserts it
when the applied update would have dropped it). -/
theorem writer_never_locked_out (uid : String) :
    (∀ newId body db doc rest,
      body.accessRights.isPublic = false →
      createAnalytics (some uid) newId body db = (.ok doc, rest) →
      uid ∈ doc.accessRights.restrictedTo.getD []) ∧
    (∀ iv aid body db doc rest,
      updateAnalytics iv (some uid) aid body db = (.ok doc, rest) →
      doc.accessRights.isPublic = false →
      uid ∈ doc.accessRights.restrictedTo.getD []) := by
  constructor
  · intro newId body db doc rest hpub h
    have hdoc := congrArg Prod.fst h
    simp only [createAnalytics] at hdoc
    rw [← HResult.ok.inj hdoc]
    simp [hpub]
  · intro iv aid body db doc rest h hpub
    obtain ⟨uid', a, huid, -, -, hdoc⟩ := updateAnalytics_ok_inv h
    cases Option.some.inj huid
    subst hdoc
    exact ensureWriterAccess_mem uid _ hpub

/-- Create body mirroring `secretAnalytics` but with nobody granted
access yet. -/
def sampleAnalyticsCreateBody : AnalyticsCreateBody :=
  { title := "Yield study", description := "Regional yields",
    analyticsType := "yield_trends",
    timeframe := { tfStart := 0, tfEnd := 1000 },
    scope := { country := "KE", region := "Rift", cropTypes := ["maize"] },
    metrics := ["avg_yield"], visualizations := [], insights := none,
    recommendations := none, sources := none,
    accessRights := { isPublic := false, restrictedTo := none } }

/-- The record `createAnalytics` builds from `sampleAnalyticsCreateBody`
for caller `writer1` and fresh id `a2`. -/
def createdAnalytics : AnalyticsDoc :=
  { id := "a2", title := "Yield study", description := "Regional yields",
    analyticsType := "yield_trends",
    timeframe := { tfStart := 0, tfEnd := 1000 },
    scope := { country := "KE", region := "Rift", cropTypes := ["maize"] },
    metrics := ["avg_yield"], visualizations := [], insights := none,
    recommendations := none, sources := none,
    accessRights := { isPublic := false, restrictedTo := some ["writer1"] } }

/-- An update that replaces `accessRights` with a non-public empty grant
list — an attempt by `memberA` to lock everyone (themself included) out. -/
def lockoutUpdateBody : AnalyticsUpdateBody :=
  { accessRights := some { isPublic := false, restrictedTo := some [] } }

/-- What `updateAnalytics` saves for `lockoutUpdateBody`: the handler
re-inserted `memberA`. -/
def lockedThenRescued : AnalyticsDoc :=
  { secretAnalytics with
    accessRights := { isPublic := false, restrictedTo := some ["memberA"] } }

/-- Witness for C10 at concrete inputs. -/
theorem writer_never_locked_out_witness :
    sampleAnalyticsCreateBody.accessRights.isPublic = false ∧
    createAnalytics (some "writer1") "a2" sampleAnalyticsCreateBody [] =
      (.ok createdAnalytics, [createdAnalytics]) ∧
    "writer1" ∈ createdAnalytics.accessRights.restrictedTo.getD [] ∧
    updateAnalytics allValid (some "memberA") "a1" lockoutUpdateBody
        [secretAnalytics] = (.ok lockedThenRescued, [lockedThenRescued]) ∧
    lockedThenRescued.accessRights.isPublic = false ∧
    "memberA" ∈ lockedThenRescued.accessRights.restrictedTo.getD [] :=
  ⟨by decide, by decide,
    (writer_never_locked_out "writer1").1 "a2" sampleAnalyticsCreateBody []
      createdAnalytics [createdAnalytics] (by decide) (by decide),
    by decide, by decide,
    (writer_never_locked_out "memberA").2 allValid "a1" lockoutUpdateBody
      [secretAnalytics] lockedThenRescued [lockedThenRescued]
      (by decide) (by decide)⟩

/-! ## C7: the mock "ML" endpoints and randomness -/

/-- **C7 counterexample.** The claim asserts all three mock endpoints
return values "drawn at random" so that two runs on the same stored
state and inputs may differ; `getSpoilageRisks` refutes it — its body
contains no `Math.random()` call, so no two runs on the same stored
products and current date can ever differ. -/
theorem spoilage_risks_deterministic_counterexample :
    ¬ ∃ (r1 r2 : RandS) (uid : Option String) (now : Int)
        (db : List ProductDoc),
      getSpoilageRisks r1 uid now db ≠ getSpoilageRisks r2 uid now db := by
  rintro ⟨r1, r2, uid, now, db, hne⟩
  exact hne rfl

/-- Evaluation of a successful `requestNewPrediction`: the response is
the mock prediction built from the nine oracle draws. -/
theorem requestNewPrediction_eval (r : RandS) (u : TokenPayload)
    (body : PredictionRequestBody) (now : Int) (farms : List FarmDoc)
    (preds : List YieldPredictionDoc) (farm : FarmDoc)
    (hf : farms.find? (fun f => f.owner = u.id) = some farm) :
    (requestNewPrediction r (some u) body now farms preds).1 =
      .ok
        { farm := farm.id
          crop := { name := body.cropName, variety := body.cropVariety,
                    area := body.cropArea }
          prediction :=
            { expectedYield := (r 0 * 5000).floor + 3000
              yieldUnit := "kg/ha"
              lowerBound := ((((r 0 * 5000).floor + 3000 : Int) : ℚ) * 0.9).floor
              upperBound := ((((r 0 * 5000).floor + 3000 : Int) : ℚ) * 1.1).floor
              confidenceLevel := 0.85 }
          factors :=
            { soilQuality := r 1 * 10
              weatherConditions :=
                if (r 2 * 2).floor = 0 then "moderate rainfall" else "good sunlight"
              pestRisks := if r 3 > 0.5 then ["aphids", "whiteflies"] else ["none"]
              rainfall := (r 4 * 300).floor + 500
              temperature :=
                { tempMin := 15 + r 5 * 5
                  tempMax := 25 + r 6 * 5
                  tempAverage := 20 + r 7 * 5 } }
          recommendations :=
            { irrigationSchedule := "Twice weekly, 20mm per session"
              fertilizers :=
                [{ fertType := "Nitrogen-rich", amount := 50, unit := "kg/ha",
                   applicationTime := "Every 2 weeks" }]
              pestManagement :=
                ["Monitor for pests regularly", "Use organic pesticides if needed"]
              harvestingDate := (now : ℚ) + r 8 * 7776000000 }
          createdAt := now } := by
  simp only [requestNewPrediction, hf]

/-- **C7 (amended).** `requestNewPrediction` and `getDemandForecasts`
are randomized placeholders — with the stored state and all non-random
inputs fixed, runs consuming different `Math.random()` streams return
different values — while `getSpoilageRisks` is a deterministic mock
heuristic of the current date and the stored products, drawing no
random values at all. -/
theorem mock_endpoints_randomized_except_spoilage :
    ((requestNewPrediction zeroRand (some { id := "f1", role := .farmer })
        sampleCropBody 0 [sampleFarm] []).1 ≠
      (requestNewPrediction halfRand (some { id := "f1", role := .farmer })
        sampleCropBody 0 [sampleFarm] []).1) ∧
    (getDemandForecasts zeroRand (some "v1") ≠
      getDemandForecasts halfRand (some "v1")) ∧
    (∀ (r1 r2 : RandS) (uid : Option String) (now : Int)
        (db : List ProductDoc),
      getSpoilageRisks r1 uid now db = getSpoilageRisks r2 uid now db) := by
  refine ⟨?_, ?_, fun _ _ _ _ _ => rfl⟩
  · intro h
    have hz := requestNewPrediction_eval zeroRand
      { id := "f1", role := .farmer } sampleCropBody 0 [sampleFarm] []
      sampleFarm (by simp [sampleFarm])
    have hh := requestNewPrediction_eval halfRand
      { id := "f1", role := .farmer } sampleCropBody 0 [sampleFarm] []
      sampleFarm (by simp [sampleFarm])
    rw [hz, hh] at h
    have h2 := congrArg
      (fun x => match x with
        | HResult.ok d => d.prediction.expectedYield
        | HResult.err _ _ => 0) h
    simp only at h2
    norm_num [zeroRand, halfRand, Rat.floor_def'] at h2
  · intro h
    simp only [getDemandForecasts, productCategories] at h
    have h1 := HResult.ok.inj h
    rw [forecastAll, forecastAll] at h1
    have h2 := congrArg (fun l => (l.map DemandForecast.demandScore)[0]?) h1
    simp only [forecastFor, List.map, List.getElem?_cons_zero] at h2
    norm_num [zeroRand, halfRand] at h2

end Agrisense
